import Mathlib

/-!
Verification of the LoRA-from-VAE-latent adapter module (`src/lora_VAEw2w.py`).

The development shallowly embeds the two classes of the source file:

* `LoRAVAEModule` (adapter around one backbone submodule): construction
  (`mkLoRAVAEModule`, modelling `LoRAVAEModule.__init__`), installation
  (`LoRAVAEModule.apply_to`) and the patched forward pass
  (`LoRAVAEModule.forward`).
* `LoRAw2wVAE` (adapter manager): layout resolution (`create_modules`,
  including the key rewriting, the pair grouping and the skip policy
  `_should_skip_module`), construction (`LoRAw2wVAE.init`, modelling
  `LoRAw2wVAE.__init__`) and scope exit (`LoRAw2wVAE.exit`, modelling
  `LoRAw2wVAE.__exit__`).

Tensors are modelled as lists of rationals (one-dimensional buffers and
inputs); a backbone submodule is modelled by its forward function; the
`weight_dimensions` artifact loaded by `__init__` from disk is passed as an
explicit association list preserving key order (python dicts preserve
insertion order); fallible python code (exceptions) is modelled with
`Except String`.
-/

/-! ## String utilities modelling the python string operations used -/

/-- Models python substring containment `pat in s`. -/
def strIn (pat s : String) : Bool :=
  (List.range (s.data.length + 1)).any (fun i => pat.data.isPrefixOf (s.data.drop i))

/-- Fuel-driven worker for `pyReplace`: scans left to right, replacing each
non-overlapping occurrence of `pat` by `rep`, never rescanning text emitted
for a replacement.  The fuel is the length of the scanned list, which bounds
the recursion depth. -/
def replaceFuel (pat rep : List Char) : Nat → List Char → List Char
  | _, [] => []
  | 0, l => l
  | Nat.succ fuel, c :: rest =>
    if !pat.isEmpty && pat.isPrefixOf (c :: rest) then
      rep ++ replaceFuel pat rep fuel (rest.drop (pat.length - 1))
    else
      c :: replaceFuel pat rep fuel rest

/-- Models python `s.replace(pat, rep)` for a nonempty pattern: replace all
non-overlapping occurrences, scanning left to right. -/
def pyReplace (s pat rep : String) : String :=
  ⟨replaceFuel pat.data rep.data s.data.length s.data⟩

/-- Position of the last occurrence of `sep` in `s`, if any. -/
def lastOcc (sep s : List Char) : Option Nat :=
  (List.range (s.length + 1)).foldl
    (fun acc i => if sep.isPrefixOf (s.drop i) then some i else acc) none

/-- Models python `s.rsplit(sep, 1)[0]` for a nonempty separator: the part of
`s` before the last occurrence of `sep`, or all of `s` when `sep` does not
occur. -/
def rsplitHead (s sep : String) : String :=
  match lastOcc sep.data s.data with
  | none => s
  | some i => ⟨s.data.take i⟩

/-! ## Tensor model

A tensor is a list of rationals.  The code only ever forms the product
`x @ lora_A.T @ lora_B.T` with `lora_A = params_A.reshape(1, -1)` (a row)
and `lora_B = params_B.reshape(-1, 1)` (a column), so for a one-dimensional
input `x` the product is the scalar `x . params_A` scaled into the direction
`params_B`. -/

/-- Dot product of two buffers (`x @ row.T`). -/
def dot (u v : List ℚ) : ℚ := (List.zipWith (fun a b => a * b) u v).sum

/-- Elementwise sum of two buffers (the `+` in the patched forward). -/
def vecAdd (u v : List ℚ) : List ℚ := List.zipWith (fun a b => a + b) u v

/-- Models `x @ factorA.reshape(1, -1).T @ factorB.reshape(-1, 1).T` for a
one-dimensional input `x`: the scalar `dot x factorA` times the vector
`factorB`. -/
def xAtBt (x factorA factorB : List ℚ) : List ℚ :=
  factorB.map (fun b => dot x factorA * b)

/-- Models python slicing `p[slice(a, b)]`: elements at indices
`a, ..., b - 1`, silently clipped to the available range. -/
def listSlice (p : List ℚ) (s : Nat × Nat) : List ℚ :=
  (p.take s.2).drop s.1

/-! ## The adapter module `LoRAVAEModule` -/

/-- State of one `LoRAVAEModule` instance.  A backbone submodule is modelled
by its forward function, so `org_module` holds the wrapped submodule (as the
function the module computes) until `apply_to` deletes the reference, and
`org_forward` holds the captured original forward (initially python `None`,
modelled as `none`). -/
structure LoRAVAEModule where
  lora_name : String
  multiplier : ℚ
  slice_A : Nat × Nat
  slice_B : Nat × Nat
  rank : Nat
  scale : ℚ
  org_module : Option (List ℚ → List ℚ)
  org_forward : Option (List ℚ → List ℚ)
  params : Option (List ℚ)

/-- Models the `alpha` defaulting of `LoRAVAEModule.__init__`:
`alpha = rank if alpha is None or alpha == 0 else alpha`. -/
def pyAlpha (alpha : Option ℚ) (rank : Nat) : ℚ :=
  match alpha with
  | none => (rank : ℚ)
  | some a => if a = 0 then (rank : ℚ) else a

/-- Models `LoRAVAEModule.__init__(lora_name, param_slices, org_module,
multiplier, rank, alpha)`: stores the two slices, computes
`scale = alpha / rank` after defaulting `alpha`, keeps the original module
reference and leaves `org_forward` and `params` unset (`None`). -/
def mkLoRAVAEModule (lora_name : String) (param_slices : (Nat × Nat) × (Nat × Nat))
    (org_module : List ℚ → List ℚ) (multiplier : ℚ) (rank : Nat)
    (alpha : Option ℚ) : LoRAVAEModule :=
  { lora_name := lora_name
    multiplier := multiplier
    slice_A := param_slices.1
    slice_B := param_slices.2
    rank := rank
    scale := pyAlpha alpha rank / (rank : ℚ)
    org_module := some org_module
    org_forward := none
    params := none }

/-- Models `LoRAVAEModule.forward(x)`.  Calling it before `apply_to` has set
`org_forward` is the python `TypeError` of calling `None`; with
`multiplier == 0` or `params is None` it is a pure passthrough; otherwise it
adds the scaled low-rank update built from the two slices of the shared
parameter buffer. -/
def LoRAVAEModule.forward (self : LoRAVAEModule) (x : List ℚ) :
    Except String (List ℚ) :=
  match self.org_forward with
  | none => Except.error "TypeError: NoneType object is not callable"
  | some org_forward =>
    match self.params with
    | none => Except.ok (org_forward x)
    | some params =>
      if self.multiplier = 0 then Except.ok (org_forward x)
      else
        let params_A := listSlice params self.slice_A
        let params_B := listSlice params self.slice_B
        Except.ok (vecAdd (org_forward x)
          ((xAtBt x params_A params_B).map
            (fun v => v * self.multiplier * self.scale)))

/-- Models `LoRAVAEModule.apply_to()`: captures `org_module.forward` as
`org_forward`, installs the adapter forward on the submodule (returned as the
second component) and deletes `self.org_module`.  Reading `self.org_module`
after the deletion is the python `AttributeError`, so a second call fails. -/
def LoRAVAEModule.apply_to (self : LoRAVAEModule) :
    Except String (LoRAVAEModule × (List ℚ → Except String (List ℚ))) :=
  match self.org_module with
  | none =>
    Except.error "AttributeError: LoRAVAEModule object has no attribute org_module"
  | some org =>
    let applied : LoRAVAEModule :=
      { self with org_forward := some org, org_module := none }
    Except.ok (applied, applied.forward)

/-! ## The adapter manager `LoRAw2wVAE` -/

/-- Decoder contract consumed by the manager: a latent dimensionality and a
decode function from latents to flat parameter buffers. -/
structure VAE where
  latent_dim : Nat
  decode : List ℚ → List ℚ

/-- The `weight_dimensions` artifact (`torch.load` of
`../files/weight_dimensions.pt`): an insertion-ordered association of layer
keys to shape descriptors, read as `weight_dimensions[key][0][0]`. -/
abbrev WD := List (String × List (List Nat))

/-- The backbone: named submodules reachable from the root, each modelled by
its forward function.  Keys are the full dotted module paths, so one lookup
models the `getattr` walk of `create_modules`. -/
abbrev UNet := List (String × (List ℚ → List ℚ))

/-- Association-list lookup by string key (python dict indexing). -/
def wdLookup (wd : WD) (k : String) : Option (List (List Nat)) :=
  match wd with
  | [] => none
  | (k2, v) :: rest => if k2 = k then some v else wdLookup rest k

/-- Models `self.weight_dimensions[key][0][0]`: a missing key is a python
`KeyError` and an empty descriptor is an `IndexError`. -/
def sizeAt (wd : WD) (k : String) : Except String Nat :=
  match wdLookup wd k with
  | none => Except.error ("KeyError: " ++ k)
  | some ((n :: _) :: _) => Except.ok n
  | some _ => Except.error "IndexError: list index out of range"

/-- Models the `getattr` walk `module = unet; for part in path.split(...):
module = getattr(module, part)` over the flattened backbone map. -/
def lookupModule (unet : UNet) (path : String) : Option (List ℚ → List ℚ) :=
  match unet with
  | [] => none
  | (p, f) :: rest => if p = path then some f else lookupModule rest path

/-- Models `LoRAw2wVAE._should_skip_module(name, train_method)`, including the
`NotImplementedError` raised for an unrecognized training method. -/
def _should_skip_module (name train_method : String) : Except String Bool :=
  if train_method = "noxattn" ∨ train_method = "noxattn-hspace" ∨
      train_method = "noxattn-hspace-last" then
    if strIn "attn2" name || strIn "time_embed" name then Except.ok true
    else Except.ok false
  else if train_method = "innoxattn" then
    if strIn "attn2" name then Except.ok true
    else Except.ok false
  else if train_method = "selfattn" then
    if !strIn "attn1" name then Except.ok true
    else Except.ok false
  else if train_method = "xattn" ∨ train_method = "xattn-strict" then
    if strIn "to_k" name then Except.ok true
    else if train_method = "xattn-strict" &&
        (strIn "out" name || strIn "to_k" name) then Except.ok true
    else Except.ok false
  else if train_method = "full" then Except.ok false
  else Except.error ("train_method: " ++ train_method ++ " is not implemented.")

/-- The training methods of the `TRAINING_METHODS` literal type; exactly the
names `_should_skip_module` recognizes. -/
def supportedMethods : List String :=
  ["noxattn", "noxattn-hspace", "noxattn-hspace-last", "innoxattn",
   "selfattn", "xattn", "xattn-strict", "full"]

/-- Models the fixed chain of `.replace` rewrites turning a
`weight_dimensions` key into a diffusers-style key in `create_modules`. -/
def diffusersKey (key : String) : String :=
  pyReplace (pyReplace (pyReplace (pyReplace (pyReplace (pyReplace (pyReplace key
    "lora_unet_" "base_model.model.") "A" "down") "B" "up")
    "weight" "identity1.weight") "_lora" ".lora") "lora_down" "lora_A")
    "lora_up" "lora_B"

/-- One entry of `module_pairs`: the optional `(orig_key, diffusers_key)`
pair stored under slot `A` and slot `B` (python `None` as `none`). -/
structure PairEntry where
  A : Option (String × String)
  B : Option (String × String)

/-- In-place update of the insertion-ordered `module_pairs` dict: an absent
base key is appended with both slots `None` before the update runs. -/
def updateAssoc (mps : List (String × PairEntry)) (k : String)
    (f : PairEntry → PairEntry) : List (String × PairEntry) :=
  match mps with
  | [] => [(k, f { A := none, B := none })]
  | (k2, e) :: rest =>
    if k2 = k then (k2, f e) :: rest else (k2, e) :: updateAssoc rest k f

/-- Models the first loop of `create_modules`: group the rewritten keys by
base key (the part before the trailing `.lora_` suffix), filing each key
under slot `A` when its diffusers key contains `lora_A` and under slot `B`
otherwise. -/
def buildModulePairs (keys : List String) : List (String × PairEntry) :=
  keys.foldl
    (fun mps key =>
      let dk := diffusersKey key
      let bk := rsplitHead dk ".lora_"
      if strIn "lora_A" dk then
        updateAssoc mps bk (fun e => { e with A := some (key, dk) })
      else
        updateAssoc mps bk (fun e => { e with B := some (key, dk) }))
    []

/-- Models the second loop of `create_modules`: for each grouped base key,
unpack the two slot entries (a missing slot is the python `TypeError` of
unpacking `None`), consult the skip policy (a skipped entry advances no
counter), read both factor sizes, assign the two slices at the running
counter, resolve the backbone module and construct the adapter.  Returns the
adapters in order together with the final counter. -/
def processPairs (wd : WD) (unet : UNet) (train_method : String)
    (multiplier : ℚ) (rank : Nat) (alpha : ℚ) :
    List (String × PairEntry) → Nat → Except String (List LoRAVAEModule × Nat)
  | [], counter => Except.ok ([], counter)
  | (base_key, pair) :: rest, counter =>
    match pair.A, pair.B with
    | some a, some b =>
      let module_path := pyReplace base_key "base_model.model." ""
      match _should_skip_module module_path train_method with
      | Except.error e => Except.error e
      | Except.ok true => processPairs wd unet train_method multiplier rank alpha rest counter
      | Except.ok false =>
        match sizeAt wd a.1, sizeAt wd b.1 with
        | Except.ok size_A, Except.ok size_B =>
          let slice_A : Nat × Nat := (counter, counter + size_A)
          let slice_B : Nat × Nat := (counter + size_A, counter + size_A + size_B)
          match lookupModule unet module_path with
          | none => Except.error ("AttributeError: " ++ module_path)
          | some m =>
            match processPairs wd unet train_method multiplier rank alpha rest
                (counter + size_A + size_B) with
            | Except.error e => Except.error e
            | Except.ok (loras, final) =>
              Except.ok (mkLoRAVAEModule base_key (slice_A, slice_B) m
                multiplier rank (some alpha) :: loras, final)
        | Except.error e, _ => Except.error e
        | _, Except.error e => Except.error e
    | _, _ =>
      Except.error "TypeError: cannot unpack non-iterable NoneType object"

/-- Models `LoRAw2wVAE.create_modules(unet, train_method)` with the manager
attributes it reads (`weight_dimensions`, `multiplier`, `lora_dim`, `alpha`)
passed explicitly: group the declared keys into module pairs, then assign
slices by a single pass with a running counter starting at zero. -/
def create_modules (wd : WD) (unet : UNet) (train_method : String)
    (multiplier : ℚ) (rank : Nat) (alpha : ℚ) :
    Except String (List LoRAVAEModule × Nat) :=
  processPairs wd unet train_method multiplier rank alpha
    (buildModulePairs (wd.map Prod.fst)) 0

/-- Models the loop `for lora in self.unet_loras: lora.apply_to()` run at the
end of `LoRAw2wVAE.__init__`. -/
def installAll : List LoRAVAEModule → Except String (List LoRAVAEModule)
  | [] => Except.ok []
  | l :: rest =>
    match l.apply_to with
    | Except.error e => Except.error e
    | Except.ok (applied, _) =>
      match installAll rest with
      | Except.error e => Except.error e
      | Except.ok restApplied => Except.ok (applied :: restApplied)

/-- State of one `LoRAw2wVAE` manager instance. -/
structure LoRAw2wVAE where
  vae : VAE
  multiplier : ℚ
  lora_dim : Nat
  alpha : ℚ
  z : List ℚ
  unet_loras : List LoRAVAEModule

/-- Models `LoRAw2wVAE.__init__(vae, unet, rank, multiplier, alpha,
train_method)` with the `weight_dimensions` artifact passed explicitly:
initialize the latent to `torch.zeros(vae.latent_dim)`, build the adapters
with `create_modules` and then install every adapter with `apply_to`.  Any
exception raised on the way aborts construction. -/
def LoRAw2wVAE.init (vae : VAE) (unet : UNet) (wd : WD) (rank : Nat)
    (multiplier alpha : ℚ) (train_method : String) :
    Except String LoRAw2wVAE :=
  match create_modules wd unet train_method multiplier rank alpha with
  | Except.error e => Except.error e
  | Except.ok (loras, _counter) =>
    match installAll loras with
    | Except.error e => Except.error e
    | Except.ok installed =>
      Except.ok
        { vae := vae
          multiplier := multiplier
          lora_dim := rank
          alpha := alpha
          z := List.replicate vae.latent_dim 0
          unet_loras := installed }

/-- Models `LoRAw2wVAE.__exit__`: reset every adapter to multiplier zero and
clear its parameter reference.  A total function: it applies to any manager
state and never fails. -/
def LoRAw2wVAE.exit (m : LoRAw2wVAE) : LoRAw2wVAE :=
  { m with
    unet_loras := m.unet_loras.map
      (fun l => { l with multiplier := 0, params := none }) }

/-- Modelled from the spec: `set_latent` is declared by the spec as a direct
override of the latent value, but the method is absent from
`src/lora_VAEw2w.py` (the spec notes the repository consists of two
near-duplicate files, of which only this one is available). -/
def LoRAw2wVAE.set_latent (m : LoRAw2wVAE) (z : List ℚ) : LoRAw2wVAE :=
  { m with z := z }

/-- Models `LoRAw2wVAE.parameters()`: the latent is the only learnable
tensor exposed. -/
def LoRAw2wVAE.parameters (m : LoRAw2wVAE) : List (List ℚ) := [m.z]

/-- Whether a construction attempt returned a manager (no exception). -/
def constructionSucceeds (e : Except String LoRAw2wVAE) : Bool :=
  match e with
  | Except.ok _ => true
  | Except.error _ => false

/-! ## Derived layout notions used by the layout claims -/

/-- The assigned ranges of a list of adapters, in assignment order: for each
adapter its `slice_A` immediately followed by its `slice_B`. -/
def slicesOf (loras : List LoRAVAEModule) : List (Nat × Nat) :=
  loras.flatMap (fun l => [l.slice_A, l.slice_B])

/-- The half-open ranges `rs` chain gaplessly from `c` to `t`: each range
starts where the previous one ended, the first starts at `c`, ranges are
well-formed and the last ends at `t`. -/
def contiguousFrom : Nat → List (Nat × Nat) → Nat → Bool
  | c, [], t => c == t
  | c, (s, e) :: rest, t => (s == c) && (decide (c ≤ e)) && contiguousFrom e rest t

/-- Whether the first grouped module pair has both slots filled. -/
def firstPairComplete (keys : List String) : Bool :=
  match buildModulePairs keys with
  | [] => false
  | (_, e) :: _ => e.A.isSome && e.B.isSome

/-- Whether the first grouped module pair is missing a slot. -/
def firstPairIncomplete (keys : List String) : Bool :=
  match buildModulePairs keys with
  | [] => false
  | (_, e) :: _ => !(e.A.isSome && e.B.isSome)

/-! ## Concrete scenario data used by witnesses and counterexamples -/

/-- A concrete backbone submodule forward (the identity). -/
def idForward : List ℚ → List ℚ := fun x => x

/-- Declared layout of the concrete scenario of the spec: two module groups
with down/up factor sizes `(8, 4)` and `(16, 8)`. -/
def wdC1 : WD :=
  [("lora_unet_m1_lora_A_weight", [[8]]),
   ("lora_unet_m1_lora_B_weight", [[4]]),
   ("lora_unet_m2_lora_A_weight", [[16]]),
   ("lora_unet_m2_lora_B_weight", [[8]])]

/-- Backbone exposing the two modules of the concrete scenario. -/
def unetC1 : UNet := [("m1", idForward), ("m2", idForward)]

/-- Adapter the resolver assigns ranges `(0, 8)` and `(8, 12)` to. -/
def loraC1m1 : LoRAVAEModule :=
  mkLoRAVAEModule "base_model.model.m1" ((0, 8), (8, 12)) idForward 1 4 (some 1)

/-- Adapter the resolver assigns ranges `(12, 28)` and `(28, 36)` to. -/
def loraC1m2 : LoRAVAEModule :=
  mkLoRAVAEModule "base_model.model.m2" ((12, 28), (28, 36)) idForward 1 4 (some 1)

/-- A decoder whose declared output width (5) disagrees with the 36
parameters resolved from `wdC1`. -/
def vaeC4 : VAE := { latent_dim := 5, decode := fun _ => [] }

/-- A small decoder with latent dimensionality 3. -/
def vaeC9 : VAE := { latent_dim := 3, decode := fun _ => [] }

/-- A layout whose only module group lacks its up-factor partner (slot `B`
stays `None`). -/
def wdC5 : WD := [("lora_unet_m1_lora_A_weight", [[8]])]

/-- A layout whose only module group lacks its down-factor partner (slot `A`
stays `None`). -/
def wdC5b : WD := [("lora_unet_m1_lora_B_weight", [[4]])]

/-- The manager produced by constructing against `vaeC9` with an empty
declared layout. -/
def mgrC9 : LoRAw2wVAE :=
  { vae := vaeC9, multiplier := 1, lora_dim := 4, alpha := 1,
    z := [0, 0, 0], unet_loras := [] }

/-- An activated adapter (buffer assigned, multiplier 1). -/
def loraC2 : LoRAVAEModule :=
  { mkLoRAVAEModule "lora" ((0, 2), (2, 4)) idForward 1 4 (some 1) with
      org_forward := some idForward, params := some [1, 2, 3, 4] }

/-- An installed but inactive adapter (multiplier 0, no buffer). -/
def loraC3 : LoRAVAEModule :=
  { mkLoRAVAEModule "lora" ((0, 2), (2, 4)) idForward 0 4 (some 1) with
      org_forward := some idForward }

/-- A freshly constructed, not yet installed adapter. -/
def loraC10 : LoRAVAEModule :=
  mkLoRAVAEModule "lora" ((0, 2), (2, 4)) idForward 1 4 (some 1)

/-! ## Helper lemmas on chained ranges -/

/-- Chained ranges only connect a smaller start to a larger end. -/
theorem contiguousFrom_le :
    ∀ (l : List (Nat × Nat)) (c t : Nat), contiguousFrom c l t = true → c ≤ t := by
  intro l
  induction l with
  | nil =>
    intro c t h
    simp only [contiguousFrom, beq_iff_eq] at h
    omega
  | cons r rest ih =>
    intro c t h
    obtain ⟨s, e⟩ := r
    simp only [contiguousFrom, Bool.and_eq_true, beq_iff_eq, decide_eq_true_eq] at h
    obtain ⟨⟨hs, hce⟩, hrest⟩ := h
    exact le_trans hce (ih e t hrest)

/-- Every range of a chain lies between the chain endpoints and is
well-formed. -/
theorem contiguousFrom_bounds :
    ∀ (l : List (Nat × Nat)) (c t : Nat), contiguousFrom c l t = true →
      ∀ r ∈ l, c ≤ r.1 ∧ r.1 ≤ r.2 ∧ r.2 ≤ t := by
  intro l
  induction l with
  | nil =>
    intro c t _ r hr
    simp at hr
  | cons p rest ih =>
    intro c t h r hr
    obtain ⟨s, e⟩ := p
    simp only [contiguousFrom, Bool.and_eq_true, beq_iff_eq, decide_eq_true_eq] at h
    obtain ⟨⟨hs, hce⟩, hrest⟩ := h
    rcases List.mem_cons.mp hr with h1 | h1
    · subst h1
      exact ⟨by omega, by omega, contiguousFrom_le rest e t hrest⟩
    · have hb := ih e t hrest r h1
      exact ⟨by omega, hb.2.1, hb.2.2⟩

/-- Chained ranges are pairwise disjoint in order: every earlier range ends
no later than every later range starts. -/
theorem contiguousFrom_pairwise :
    ∀ (l : List (Nat × Nat)) (c t : Nat), contiguousFrom c l t = true →
      List.Pairwise (fun r1 r2 : Nat × Nat => r1.2 ≤ r2.1) l := by
  intro l
  induction l with
  | nil => intro c t _; exact List.Pairwise.nil
  | cons p rest ih =>
    intro c t h
    obtain ⟨s, e⟩ := p
    simp only [contiguousFrom, Bool.and_eq_true, beq_iff_eq, decide_eq_true_eq] at h
    obtain ⟨⟨hs, hce⟩, hrest⟩ := h
    refine List.Pairwise.cons ?_ (ih e t hrest)
    intro r hr
    exact (contiguousFrom_bounds rest e t hrest r hr).1

/-- A chain from `c` to `t` covers exactly the interval `[c, t)`: membership
in some range is equivalent to lying between the endpoints. -/
theorem contiguousFrom_cover :
    ∀ (l : List (Nat × Nat)) (c t : Nat), contiguousFrom c l t = true →
      ∀ n : Nat, (c ≤ n ∧ n < t) ↔ ∃ r ∈ l, r.1 ≤ n ∧ n < r.2 := by
  intro l
  induction l with
  | nil =>
    intro c t h n
    simp only [contiguousFrom, beq_iff_eq] at h
    subst h
    simp only [List.not_mem_nil, false_and, exists_false, iff_false, not_and, not_lt]
    omega
  | cons p rest ih =>
    intro c t h n
    obtain ⟨s, e⟩ := p
    simp only [contiguousFrom, Bool.and_eq_true, beq_iff_eq, decide_eq_true_eq] at h
    obtain ⟨⟨hs, hce⟩, hrest⟩ := h
    subst hs
    have het := contiguousFrom_le rest e t hrest
    have hih := ih e t hrest n
    constructor
    · intro hn
      by_cases hne : n < e
      · exact ⟨(s, e), List.mem_cons_self _ _, by omega, hne⟩
      · obtain ⟨r, hr, hr2⟩ := hih.mp ⟨by omega, hn.2⟩
        exact ⟨r, List.mem_cons_of_mem _ hr, hr2⟩
    · rintro ⟨r, hr, hr21, hr22⟩
      rcases List.mem_cons.mp hr with h1 | h1
      · subst h1
        exact ⟨hr21, lt_of_lt_of_le hr22 het⟩
      · have := hih.mpr ⟨r, h1, hr21, hr22⟩
        omega

/-- Slice accounting invariant of the resolver loop: a successful pass over
the grouped pairs starting at counter `c` yields adapters whose ranges, in
assignment order, chain gaplessly from `c` to the final counter, and each
adapter has `slice_A` ending where its `slice_B` starts. -/
theorem processPairs_spec (wd : WD) (unet : UNet) (tm : String)
    (mult : ℚ) (rank : Nat) (alpha : ℚ) :
    ∀ (pairs : List (String × PairEntry)) (c : Nat)
      (loras : List LoRAVAEModule) (t : Nat),
      processPairs wd unet tm mult rank alpha pairs c = Except.ok (loras, t) →
      contiguousFrom c (slicesOf loras) t = true ∧
      ∀ l ∈ loras, l.slice_A.2 = l.slice_B.1 := by
  intro pairs
  induction pairs with
  | nil =>
    intro c loras t h
    simp only [processPairs, Except.ok.injEq, Prod.mk.injEq] at h
    obtain ⟨h1, h2⟩ := h
    subst h1
    subst h2
    refine ⟨?_, by simp⟩
    simp [slicesOf, contiguousFrom]
  | cons p rest ih =>
    intro c loras t h
    obtain ⟨bk, pair⟩ := p
    cases hA : pair.A with
    | none => simp [processPairs, hA] at h
    | some a =>
      cases hB : pair.B with
      | none => simp [processPairs, hA, hB] at h
      | some b =>
        simp only [processPairs, hA, hB] at h
        cases hS : _should_skip_module (pyReplace bk "base_model.model." "") tm with
        | error e => simp [hS] at h
        | ok sk =>
          cases sk with
          | true =>
            simp only [hS] at h
            exact ih c loras t h
          | false =>
            simp only [hS] at h
            cases hsa : sizeAt wd a.1 with
            | error e => simp [hsa] at h
            | ok size_A =>
              cases hsb : sizeAt wd b.1 with
              | error e => simp [hsa, hsb] at h
              | ok size_B =>
                simp only [hsa, hsb] at h
                cases hm : lookupModule unet (pyReplace bk "base_model.model." "") with
                | none => simp [hm] at h
                | some f =>
                  simp only [hm] at h
                  cases hrec : processPairs wd unet tm mult rank alpha rest
                      (c + size_A + size_B) with
                  | error e => simp [hrec] at h
                  | ok pr =>
                    obtain ⟨ls, fin⟩ := pr
                    simp only [hrec, Except.ok.injEq, Prod.mk.injEq] at h
                    obtain ⟨h1, h2⟩ := h
                    subst h2
                    subst h1
                    obtain ⟨ihc, ihAB⟩ :=
                      ih (c + size_A + size_B) ls fin hrec
                    constructor
                    · rw [show slicesOf (mkLoRAVAEModule bk
                          ((c, c + size_A), (c + size_A, c + size_A + size_B)) f
                          mult rank (some alpha) :: ls)
                          = (c, c + size_A) :: (c + size_A, c + size_A + size_B)
                            :: slicesOf ls from rfl]
                      simp [contiguousFrom, ihc]
                    · intro l hl
                      rcases List.mem_cons.mp hl with h1 | h1
                      · subst h1
                        simp [mkLoRAVAEModule]
                      · exact ihAB l h1

/-- An unrecognized training-method name always raises the
`NotImplementedError` of `_should_skip_module`. -/
theorem shouldSkip_unsupported (name tm : String) (h : tm ∉ supportedMethods) :
    _should_skip_module name tm
      = Except.error ("train_method: " ++ tm ++ " is not implemented.") := by
  simp only [supportedMethods, List.mem_cons, List.not_mem_nil, or_false,
    not_or] at h
  obtain ⟨h1, h2, h3, h4, h5, h6, h7, h8⟩ := h
  simp [_should_skip_module, h1, h2, h3, h4, h5, h6, h7, h8]

/-- Resetting an adapter to the inactive state twice equals resetting it
once (on lists of adapters). -/
theorem exit_map_idem (ls : List LoRAVAEModule) :
    (ls.map (fun l => { l with multiplier := 0, params := none })).map
        (fun l => { l with multiplier := 0, params := none })
      = ls.map (fun l => { l with multiplier := 0, params := none }) := by
  induction ls with
  | nil => rfl
  | cons a t ih => simp only [List.map_cons, ih]

/-! ## Claims -/

/-- C1: for every declared layout and training method on which
`create_modules` succeeds, the assigned slices, in assignment order, are
pairwise disjoint half-open ranges chaining gaplessly from 0 to the final
counter, their union is exactly the interval below the final counter, and
each retained adapter has `slice_A` immediately preceding `slice_B`. -/
theorem c1_create_modules_slices_partition (wd : WD) (unet : UNet)
    (tm : String) (mult : ℚ) (rank : Nat) (alpha : ℚ)
    (loras : List LoRAVAEModule) (counter : Nat)
    (h : create_modules wd unet tm mult rank alpha = Except.ok (loras, counter)) :
    contiguousFrom 0 (slicesOf loras) counter = true ∧
    List.Pairwise (fun r1 r2 : Nat × Nat => r1.2 ≤ r2.1) (slicesOf loras) ∧
    (∀ n : Nat, n < counter ↔ ∃ r ∈ slicesOf loras, r.1 ≤ n ∧ n < r.2) ∧
    (∀ l ∈ loras, l.slice_A.2 = l.slice_B.1) := by
  simp only [create_modules] at h
  obtain ⟨hc, hAB⟩ := processPairs_spec wd unet tm mult rank alpha
    (buildModulePairs (wd.map Prod.fst)) 0 loras counter h
  refine ⟨hc, contiguousFrom_pairwise _ _ _ hc, ?_, hAB⟩
  intro n
  have hcov := contiguousFrom_cover _ _ _ hc n
  simpa using hcov

/-- C1 witness: the spec scenario — factor sizes `(8, 4)` and `(16, 8)` are
assigned the ranges `(0, 8), (8, 12)` and `(12, 28), (28, 36)` with final
counter 36. -/
theorem c1_create_modules_slices_partition_witness :
    contiguousFrom 0 (slicesOf [loraC1m1, loraC1m2]) 36 = true ∧
    slicesOf [loraC1m1, loraC1m2] = [(0, 8), (8, 12), (12, 28), (28, 36)] :=
  ⟨(c1_create_modules_slices_partition wdC1 unetC1 "full" 1 4 1
      [loraC1m1, loraC1m2] 36 rfl).1, by decide⟩

/-- C2: with a nonzero multiplier, an assigned buffer and a captured
original forward, the adapter forward is the original output plus the sliced
low-rank update scaled by the multiplier and by `alpha / rank`, where alpha
defaults to the rank when unset or zero. -/
theorem c2_activation_law (name : String)
    (slices : (Nat × Nat) × (Nat × Nat)) (org f : List ℚ → List ℚ)
    (m : ℚ) (rank : Nat) (alpha : Option ℚ) (P x : List ℚ) (hm : m ≠ 0) :
    LoRAVAEModule.forward
      { mkLoRAVAEModule name slices org m rank alpha with
          org_forward := some f, params := some P } x
    = Except.ok (vecAdd (f x)
        ((xAtBt x (listSlice P slices.1) (listSlice P slices.2)).map
          (fun v => v * m * (pyAlpha alpha rank / (rank : ℚ))))) := by
  simp [LoRAVAEModule.forward, mkLoRAVAEModule, hm]

/-- C2 witness: the activation law at a concrete activated adapter. -/
theorem c2_activation_law_witness :
    (1 : ℚ) ≠ 0 ∧
    LoRAVAEModule.forward loraC2 [1, 2]
      = Except.ok (vecAdd (idForward [1, 2])
          ((xAtBt [1, 2] (listSlice [1, 2, 3, 4] (0, 2))
              (listSlice [1, 2, 3, 4] (2, 4))).map
            (fun v => v * 1 * (pyAlpha (some 1) 4 / (4 : ℚ))))) :=
  ⟨by decide,
   c2_activation_law "lora" ((0, 2), (2, 4)) idForward idForward 1 4
     (some 1) [1, 2, 3, 4] [1, 2] (by decide)⟩

/-- C3: with multiplier 0 or no assigned buffer, the adapter forward is
exactly the captured original forward output. -/
theorem c3_passthrough_law (l : LoRAVAEModule) (f : List ℚ → List ℚ)
    (x : List ℚ) (hf : l.org_forward = some f)
    (h : l.multiplier = 0 ∨ l.params = none) :
    l.forward x = Except.ok (f x) := by
  rcases h with h | h
  · cases hp : l.params with
    | none => simp [LoRAVAEModule.forward, hf, hp]
    | some p => simp [LoRAVAEModule.forward, hf, hp, h]
  · simp [LoRAVAEModule.forward, hf, h]

/-- C3 witness: the passthrough law at a concrete inactive adapter. -/
theorem c3_passthrough_law_witness :
    LoRAVAEModule.forward loraC3 [1, 2] = Except.ok (idForward [1, 2]) :=
  c3_passthrough_law loraC3 idForward [1, 2] rfl (Or.inl rfl)

/-- C4 counterexample: against a decoder of declared width 5, the layout
`wdC1` resolves to 36 parameters, yet construction succeeds — no
parameter-count check is performed and no error aborts initialization. -/
theorem c4_counterexample :
    (create_modules wdC1 unetC1 "full" 1 4 1).map (fun p => p.2)
      = Except.ok 36 ∧
    vaeC4.latent_dim = 5 ∧
    constructionSucceeds (LoRAw2wVAE.init vaeC4 unetC1 wdC1 4 1 1 "full")
      = true ∧
    (36 : Nat) ≠ 5 := by
  refine ⟨rfl, rfl, rfl, by decide⟩

/-- C4 amended: construction never compares the resolved parameter count
with the decoder — whether `LoRAw2wVAE.init` succeeds is independent of the
decoder passed in (the final counter is only printed). -/
theorem c4_no_width_check (vae vae2 : VAE) (unet : UNet) (wd : WD)
    (rank : Nat) (mult alpha : ℚ) (tm : String) :
    constructionSucceeds (LoRAw2wVAE.init vae unet wd rank mult alpha tm)
      = constructionSucceeds (LoRAw2wVAE.init vae2 unet wd rank mult alpha tm) := by
  cases h1 : create_modules wd unet tm mult rank alpha with
  | error e => simp [LoRAw2wVAE.init, h1]
  | ok pr =>
    obtain ⟨loras, cnt⟩ := pr
    cases h2 : installAll loras with
    | error e => simp [LoRAw2wVAE.init, h1, h2]
    | ok inst => simp [LoRAw2wVAE.init, h1, h2, constructionSucceeds]

/-- C5 counterexample: on a layout whose only module group lacks its
up-factor partner, `create_modules` raises (the python `TypeError` of
unpacking `None`) instead of logging and skipping the entry. -/
theorem c5_counterexample :
    create_modules wdC5 [] "full" 1 4 1
      = Except.error "TypeError: cannot unpack non-iterable NoneType object" := by
  rfl

/-- C5 amended: whenever the first grouped module pair is missing a partner,
`create_modules` aborts with the unpacking `TypeError` rather than skipping
the malformed entry and continuing. -/
theorem c5_malformed_raises (wd : WD) (unet : UNet) (tm : String)
    (mult : ℚ) (rank : Nat) (alpha : ℚ)
    (h : firstPairIncomplete (wd.map Prod.fst) = true) :
    create_modules wd unet tm mult rank alpha
      = Except.error "TypeError: cannot unpack non-iterable NoneType object" := by
  simp only [create_modules]
  cases hbp : buildModulePairs (wd.map Prod.fst) with
  | nil => simp [firstPairIncomplete, hbp] at h
  | cons p rest =>
    obtain ⟨bk, e⟩ := p
    simp only [firstPairIncomplete, hbp] at h
    cases hA : e.A with
    | none => simp [processPairs, hA]
    | some a =>
      cases hB : e.B with
      | none => simp [processPairs, hA, hB]
      | some b => simp [hA, hB] at h

/-- C5 witness for the amended claim: a layout whose only group lacks its
down-factor partner aborts with the unpacking error. -/
theorem c5_malformed_raises_witness :
    create_modules wdC5b [] "full" 1 4 1
      = Except.error "TypeError: cannot unpack non-iterable NoneType object" :=
  c5_malformed_raises wdC5b [] "full" 1 4 1 (by decide)

/-- C6: inclusion policy table of `_should_skip_module` — skip for the three
noxattn variants on "attn2" or "time_embed", for innoxattn on "attn2", for
selfattn exactly when "attn1" is absent, for xattn on "to_k", for
xattn-strict on "to_k" or "out", and never for full. -/
theorem c6_should_skip_policy (name : String) :
    _should_skip_module name "noxattn"
      = Except.ok (strIn "attn2" name || strIn "time_embed" name) ∧
    _should_skip_module name "noxattn-hspace"
      = Except.ok (strIn "attn2" name || strIn "time_embed" name) ∧
    _should_skip_module name "noxattn-hspace-last"
      = Except.ok (strIn "attn2" name || strIn "time_embed" name) ∧
    _should_skip_module name "innoxattn" = Except.ok (strIn "attn2" name) ∧
    _should_skip_module name "selfattn" = Except.ok (!strIn "attn1" name) ∧
    _should_skip_module name "xattn" = Except.ok (strIn "to_k" name) ∧
    _should_skip_module name "xattn-strict"
      = Except.ok (strIn "to_k" name || strIn "out" name) ∧
    _should_skip_module name "full" = Except.ok false := by
  refine ⟨?_, ?_, ?_, ?_, ?_, ?_, ?_, ?_⟩
  · cases hA : strIn "attn2" name <;> cases hB : strIn "time_embed" name <;>
      simp [_should_skip_module, hA, hB]
  · cases hA : strIn "attn2" name <;> cases hB : strIn "time_embed" name <;>
      simp [_should_skip_module, hA, hB]
  · cases hA : strIn "attn2" name <;> cases hB : strIn "time_embed" name <;>
      simp [_should_skip_module, hA, hB]
  · cases hA : strIn "attn2" name <;> simp [_should_skip_module, hA]
  · cases hA : strIn "attn1" name <;> simp [_should_skip_module, hA]
  · cases hA : strIn "to_k" name <;> simp [_should_skip_module, hA]
  · cases hA : strIn "to_k" name <;> cases hB : strIn "out" name <;>
      simp [_should_skip_module, hA, hB]
  · simp [_should_skip_module]

/-- C7: an unsupported training-method name makes construction fail with the
`NotImplementedError` raised while resolving the layout, before any adapter
is installed — `LoRAw2wVAE.init` returns the error and produces no manager,
so no backbone submodule is modified. -/
theorem c7_unsupported_method_aborts (vae : VAE) (unet : UNet) (wd : WD)
    (rank : Nat) (mult alpha : ℚ) (tm : String)
    (h1 : tm ∉ supportedMethods)
    (h2 : firstPairComplete (wd.map Prod.fst) = true) :
    LoRAw2wVAE.init vae unet wd rank mult alpha tm
      = Except.error ("train_method: " ++ tm ++ " is not implemented.") := by
  have hcm : create_modules wd unet tm mult rank alpha
      = Except.error ("train_method: " ++ tm ++ " is not implemented.") := by
    simp only [create_modules]
    cases hbp : buildModulePairs (wd.map Prod.fst) with
    | nil => simp [firstPairComplete, hbp] at h2
    | cons p rest =>
      obtain ⟨bk, e⟩ := p
      simp only [firstPairComplete, hbp, Bool.and_eq_true] at h2
      obtain ⟨a, hA⟩ := Option.isSome_iff_exists.mp h2.1
      obtain ⟨b, hB⟩ := Option.isSome_iff_exists.mp h2.2
      simp [processPairs, hA, hB, shouldSkip_unsupported _ _ h1]
  simp [LoRAw2wVAE.init, hcm]

/-- C7 witness: the method name "bogus" on the two-group scenario layout
aborts construction with the unsupported-method error. -/
theorem c7_unsupported_method_aborts_witness :
    LoRAw2wVAE.init vaeC9 unetC1 wdC1 4 1 1 "bogus"
      = Except.error ("train_method: " ++ "bogus" ++ " is not implemented.") :=
  c7_unsupported_method_aborts vaeC9 unetC1 wdC1 4 1 1 "bogus"
    (by decide) (by decide)

/-- C8: scope exit is idempotent and safe from any prior adapter state —
after one exit every adapter has multiplier 0 and no parameter reference,
and a second exit changes nothing (exit is a total function, so it also
needs no matching enter and never raises). -/
theorem c8_exit_idempotent (m : LoRAw2wVAE) :
    (∀ l ∈ (LoRAw2wVAE.exit m).unet_loras,
        l.multiplier = 0 ∧ l.params = none) ∧
    LoRAw2wVAE.exit (LoRAw2wVAE.exit m) = LoRAw2wVAE.exit m := by
  constructor
  · intro l hl
    simp only [LoRAw2wVAE.exit, List.mem_map] at hl
    obtain ⟨a, _, rfl⟩ := hl
    exact ⟨rfl, rfl⟩
  · simp only [LoRAw2wVAE.exit]
    rw [exit_map_idem]

/-- C9: construction initializes the latent to a zero vector of the decoder
latent dimensionality, and `set_latent` (spec-modelled, absent from the
source file) directly overrides the latent value. -/
theorem c9_latent_init_and_set (vae : VAE) (unet : UNet) (wd : WD)
    (rank : Nat) (mult alpha : ℚ) (tm : String) (mgr : LoRAw2wVAE)
    (zNew : List ℚ)
    (h : LoRAw2wVAE.init vae unet wd rank mult alpha tm = Except.ok mgr) :
    mgr.z = List.replicate vae.latent_dim 0 ∧
    (LoRAw2wVAE.set_latent mgr zNew).z = zNew := by
  refine ⟨?_, rfl⟩
  simp only [LoRAw2wVAE.init] at h
  cases h1 : create_modules wd unet tm mult rank alpha with
  | error e => simp [h1] at h
  | ok pr =>
    obtain ⟨loras, cnt⟩ := pr
    simp only [h1] at h
    cases h2 : installAll loras with
    | error e => simp [h2] at h
    | ok installed =>
      simp only [h2, Except.ok.injEq] at h
      subst h
      rfl

/-- C9 witness: constructing against a decoder of latent dimensionality 3
with an empty layout yields the zero latent `[0, 0, 0]`, and `set_latent`
overrides it. -/
theorem c9_latent_init_and_set_witness :
    mgrC9.z = List.replicate vaeC9.latent_dim 0 ∧
    (LoRAw2wVAE.set_latent mgrC9 [5]).z = [5] :=
  c9_latent_init_and_set vaeC9 [] [] 4 1 1 "full" mgrC9 [5] rfl

/-- C10: the first `apply_to` captures the submodule forward as
`org_forward`, installs the adapter forward and deletes the submodule
reference; a second `apply_to` on the result fails with the
`AttributeError` of the deleted attribute instead of re-wrapping. -/
theorem c10_apply_to_once (l : LoRAVAEModule) (f : List ℚ → List ℚ)
    (h : l.org_module = some f) :
    l.apply_to = Except.ok
      ({ l with org_forward := some f, org_module := none },
       LoRAVAEModule.forward { l with org_forward := some f, org_module := none }) ∧
    LoRAVAEModule.apply_to { l with org_forward := some f, org_module := none }
      = Except.error
          "AttributeError: LoRAVAEModule object has no attribute org_module" := by
  constructor
  · simp [LoRAVAEModule.apply_to, h]
  · simp [LoRAVAEModule.apply_to]

/-- C10 witness: installing a concrete fresh adapter once succeeds and a
second installation fails. -/
theorem c10_apply_to_once_witness :
    LoRAVAEModule.apply_to loraC10 = Except.ok
      ({ loraC10 with org_forward := some idForward, org_module := none },
       LoRAVAEModule.forward
        { loraC10 with org_forward := some idForward, org_module := none }) ∧
    LoRAVAEModule.apply_to
        { loraC10 with org_forward := some idForward, org_module := none }
      = Except.error
          "AttributeError: LoRAVAEModule object has no attribute org_module" :=
  c10_apply_to_once loraC10 idForward rfl
